import Mathlib

/-!
Shallow embedding of the sharthi-frontend core (role-aware navigation /
session-guard state machine, draft checkout, and the derived-aggregation
logic) together with proofs of the behavioural claims about it.

Source files referenced throughout:
* `App` (src/unnamed/part_000, first document): pages, auth guard,
  login/logout/navigation handlers, token-based session restore.
* `EventDetail` (src/unnamed/part_000, second document): event id
  resolution, tier cards, tier selection.
* `BookingFlow` (src/unnamed/part_001, first document): draft checkout
  payment step.
* `SearchPage` (src/unnamed/part_001, second document): load effect with
  abort controller and cancel flag.
* `OrganizerDashboard` (src/unnamed/part_002): load effects without
  cancellation.
* `Auth.tsx`, `AdminDashboard.tsx` (src/src/components): role mapping and
  booking analytics.
-/

namespace Sharthi

/-! ### Client-local key/value storage (window.localStorage) -/

/-- `localStorage` modelled as an association list of string keys/values. -/
abbrev Storage := List (String × String)

/-- `localStorage.getItem k` : the first binding for `k`, if any. -/
def getItem : Storage → String → Option String
  | [], _ => none
  | kv :: rest, k => if kv.fst = k then some kv.snd else getItem rest k

/-- `localStorage.removeItem k` : drop every binding for `k`. -/
def removeItem : Storage → String → Storage
  | [], _ => []
  | kv :: rest, k => if kv.fst = k then removeItem rest k else kv :: removeItem rest k

/-- JavaScript `a || b` on nullable strings: `null` and `""` are falsy. -/
def jsOr (a b : Option String) : Option String :=
  match a with
  | none => b
  | some s => if s = "" then b else some s

/-- JavaScript `a || b` where the fallback is a plain string. -/
def jsOrStr (a : Option String) (b : String) : String :=
  match a with
  | none => b
  | some s => if s = "" then b else s

/-- JavaScript truthiness of a nullable string. -/
def isTruthy (a : Option String) : Bool :=
  match a with
  | none => false
  | some s => !(s == "")

/-! ### App (src/unnamed/part_000): pages, session state, guarded navigation -/

/-- The `Page` union type of App (part_000 lines 17-26). -/
inductive Page
  | home
  | eventDetail
  | booking
  | organizer
  | admin
  | chatbot
  | profile
  | search
  | myBookings
  deriving DecidableEq, Repr

/-- The `UserRole` union type (part_000 line 28). -/
inductive UserRole
  | creator
  | organizer
  | admin
  deriving DecidableEq, Repr

/-- The `useState` pieces held by `App` (part_000 lines 59-64). -/
structure AppState where
  currentPage : Page
  userRole : UserRole
  selectedEventId : Option String
  isAuthenticated : Bool
  showAuth : Bool
  userEmail : String
  deriving DecidableEq, Repr

/-- The initial values of the `useState` hooks (part_000 lines 59-64). -/
def initialAppState : AppState :=
  { currentPage := Page.home
    userRole := UserRole.creator
    selectedEventId := none
    isAuthenticated := false
    showAuth := false
    userEmail := "" }

/-- The guarded-page set `requiresAuth` (part_000 lines 81-91). -/
def requiresAuth (p : Page) : Bool :=
  match p with
  | Page.booking => true
  | Page.organizer => true
  | Page.admin => true
  | Page.myBookings => true
  | Page.profile => true
  | _ => false

/-- `navigate` (part_000 lines 93-99): guarded screens prompt sign-in and
leave the current page unchanged when unauthenticated; otherwise the
current page becomes the requested page. -/
def navigate (st : AppState) (p : Page) : AppState :=
  if requiresAuth p && !st.isAuthenticated then
    { st with showAuth := true }
  else
    { st with currentPage := p }

/-- `navigateToEvent` (part_000 lines 101-104). -/
def navigateToEvent (st : AppState) (eventId : String) : AppState :=
  { st with selectedEventId := some eventId, currentPage := Page.eventDetail }

/-- `handleLogin` (part_000 lines 114-128): store email/role, mark the
session authenticated, and land on a role-directed page. -/
def handleLogin (st : AppState) (email : String) (role : UserRole) : AppState :=
  let st1 := { st with userEmail := email, userRole := role, isAuthenticated := true }
  match role with
  | UserRole.organizer => { st1 with currentPage := Page.organizer }
  | UserRole.admin => { st1 with currentPage := Page.admin }
  | UserRole.creator => { st1 with currentPage := Page.profile }

/-- The six keys removed by `handleLogout` (part_000 lines 135-140). -/
def logoutKeys : List String :=
  ["jwt", "sharthi_token", "sharthi_user",
   "sharthi_role_intent", "sharthi_name_intent", "sharthi_phone_intent"]

/-- `handleLogout` (part_000 lines 130-142): reset the session to the
anonymous defaults, drop all persisted identity keys, go home. -/
def handleLogout (st : AppState) (store : Storage) : AppState × Storage :=
  ({ st with
      isAuthenticated := false
      userEmail := ""
      userRole := UserRole.creator
      currentPage := Page.home },
   logoutKeys.foldl removeItem store)

/-! ### Role mapping (Auth.tsx lines 47-52, duplicated inline in
part_000 lines 44-47) -/

/-- ASCII uppercase of a string, modelling `String.prototype.toUpperCase`
on the ASCII role strings this code compares against. -/
def toUpperStr (s : String) : String :=
  String.mk (s.data.map Char.toUpper)

/-- ASCII lowercase of a string (`String.prototype.toLowerCase`). -/
def toLowerStr (s : String) : String :=
  String.mk (s.data.map Char.toLower)

/-- `toUiRole` (Auth.tsx lines 47-52): `String(raw || "CREATOR")` is
uppercased, `"ORGANIZER"` and `"ADMIN"` map to their enum value, and
everything else falls back to `creator`.  part_000 lines 44-47 inline the
same mapping inside `meFromToken`. -/
def toUiRole (raw : Option String) : UserRole :=
  let r := toUpperStr (jsOrStr raw "CREATOR")
  if r = "ORGANIZER" then UserRole.organizer
  else if r = "ADMIN" then UserRole.admin
  else UserRole.creator

/-! ### Session restore (part_000 lines 33-78) -/

/-- Outcome of the `/auth/me` request as observed by `meFromToken`:
a thrown fetch or a body whose `res.json()` throws, a non-2xx status,
or a parsed JSON body carrying optional `role` and `email` fields. -/
inductive MeResult
  | fetchError
  | notOk
  | ok (role : Option String) (email : Option String)
  deriving DecidableEq, Repr

/-- `true` exactly on the `ok` constructor. -/
def isOkResp : MeResult → Bool
  | MeResult.ok _ _ => true
  | _ => false

/-- The token lookup `localStorage.getItem("jwt") ||
localStorage.getItem("sharthi_token")` (part_000 lines 34-35, also
`getToken` in part_001 lines 44-51). -/
def storedJwt (store : Storage) : Option String :=
  jsOr (getItem store "jwt") (getItem store "sharthi_token")

/-- `meFromToken` (part_000 lines 33-56): no token means `null`;
any fetch error, parse error or non-success status means `null`;
otherwise the mapped role and `u.email || ""`. -/
def meFromToken (store : Storage) (resp : MeResult) : Option (UserRole × String) :=
  if isTruthy (storedJwt store) = false then none
  else
    match resp with
    | MeResult.fetchError => none
    | MeResult.notOk => none
    | MeResult.ok role email => some (toUiRole role, jsOrStr email "")

/-- The auto-login effect (part_000 lines 67-78): when `meFromToken`
returns a user the session becomes authenticated with that role and
email (and the page is untouched); otherwise nothing changes. -/
def restoreSession (st : AppState) (store : Storage) (resp : MeResult) : AppState :=
  match meFromToken store resp with
  | none => st
  | some (role, email) =>
      { st with isAuthenticated := true, userEmail := email, userRole := role }

/-! ### Claims about navigation, session and role mapping -/


lemma getItem_removeItem (s : Storage) (k k' : String) :
    getItem (removeItem s k) k' = if k' = k then none else getItem s k' := by
  induction s with
  | nil => simp [getItem, removeItem]
  | cons kv rest ih =>
      by_cases h1 : kv.fst = k <;> by_cases h2 : kv.fst = k'
      · have hkk : k' = k := by rw [← h2, h1]
        subst hkk
        simp [getItem, removeItem, h1, ih]
      · have hkk : ¬ k' = k := fun h => h2 (h1.trans h.symm)
        have hkk2 : ¬ k = k' := fun h => hkk h.symm
        simp [getItem, removeItem, h1, h2, ih, hkk, hkk2]
      · have hkk : ¬ k' = k := fun h => h1 (h2.trans h)
        have hkk2 : ¬ k = k' := fun h => hkk h.symm
        simp [getItem, removeItem, h1, h2, ih, hkk, hkk2]
      · simp [getItem, removeItem, h1, h2, ih]

theorem claim_C4_logout_reset (st : AppState) (store : Storage) :
    ((handleLogout st store).1.isAuthenticated = false)
    ∧ ((handleLogout st store).1.userRole = UserRole.creator)
    ∧ ((handleLogout st store).1.userEmail = "")
    ∧ ((handleLogout st store).1.currentPage = Page.home)
    ∧ getItem (handleLogout st store).2 "jwt" = none
    ∧ getItem (handleLogout st store).2 "sharthi_token" = none
    ∧ getItem (handleLogout st store).2 "sharthi_user" = none
    ∧ getItem (handleLogout st store).2 "sharthi_role_intent" = none
    ∧ getItem (handleLogout st store).2 "sharthi_name_intent" = none
    ∧ getItem (handleLogout st store).2 "sharthi_phone_intent" = none := by
  refine ⟨rfl, rfl, rfl, rfl, ?_, ?_, ?_, ?_, ?_, ?_⟩ <;>
    simp [handleLogout, logoutKeys, getItem_removeItem]

theorem claim_C1_nav_guard (st : AppState) (p : Page)
    (hauth : st.isAuthenticated = false) :
    (requiresAuth p = true →
      (navigate st p).currentPage = st.currentPage ∧ (navigate st p).showAuth = true)
    ∧ (requiresAuth p = false → (navigate st p).currentPage = p)
    ∧ (requiresAuth p = true ↔
        (p = Page.booking ∨ p = Page.organizer ∨ p = Page.admin ∨
         p = Page.myBookings ∨ p = Page.profile)) := by
  refine ⟨?_, ?_, ?_⟩
  · intro hr; simp [navigate, hauth, hr]
  · intro hr; simp [navigate, hauth, hr]
  · cases p <;> decide

theorem claim_C1_nav_guard_witness :
    initialAppState.isAuthenticated = false
    ∧ ((requiresAuth Page.booking = true →
        (navigate initialAppState Page.booking).currentPage = initialAppState.currentPage
        ∧ (navigate initialAppState Page.booking).showAuth = true)
      ∧ (requiresAuth Page.booking = false →
        (navigate initialAppState Page.booking).currentPage = Page.booking)
      ∧ (requiresAuth Page.booking = true ↔
          (Page.booking = Page.booking ∨ Page.booking = Page.organizer ∨
           Page.booking = Page.admin ∨ Page.booking = Page.myBookings ∨
           Page.booking = Page.profile))) :=
  ⟨rfl, claim_C1_nav_guard initialAppState Page.booking rfl⟩

theorem claim_C3_login_landing (st : AppState) (email : String) :
    (handleLogin st email UserRole.organizer).currentPage = Page.organizer
    ∧ (handleLogin st email UserRole.admin).currentPage = Page.admin
    ∧ (handleLogin st email UserRole.creator).currentPage = Page.profile :=
  ⟨rfl, rfl, rfl⟩

theorem claim_C7_restore_fail_closed (store : Storage) (resp : MeResult) :
    ((restoreSession initialAppState store resp).isAuthenticated = true ↔
      (isTruthy (storedJwt store) = true ∧ isOkResp resp = true))
    ∧ ((isTruthy (storedJwt store) = false ∨ isOkResp resp = false) →
        restoreSession initialAppState store resp = initialAppState) := by
  cases hr : resp <;> cases ht : isTruthy (storedJwt store) <;>
    simp [restoreSession, meFromToken, isOkResp, ht, initialAppState]

theorem claim_C7_restore_fail_closed_witness :
    restoreSession initialAppState [] (MeResult.ok none none) = initialAppState :=
  (claim_C7_restore_fail_closed [] (MeResult.ok none none)).2 (Or.inl (by decide))

theorem claim_C8_role_mapping (s : String) :
    (toUiRole (some s) = UserRole.organizer ↔ toUpperStr s = "ORGANIZER")
    ∧ (toUiRole (some s) = UserRole.admin ↔ toUpperStr s = "ADMIN")
    ∧ (toUpperStr s ≠ "ORGANIZER" → toUpperStr s ≠ "ADMIN" →
        toUiRole (some s) = UserRole.creator)
    ∧ toUiRole none = UserRole.creator := by
  by_cases hs : s = ""
  · subst hs; decide
  · have h1 : jsOrStr (some s) "CREATOR" = s := by simp [jsOrStr, hs]
    refine ⟨?_, ?_, ?_, by decide⟩ <;>
      by_cases h2 : toUpperStr s = "ORGANIZER" <;> by_cases h3 : toUpperStr s = "ADMIN" <;>
        simp [toUiRole, h1, h2, h3]

theorem claim_C8_role_mapping_witness :
    toUiRole (some "Organizer") = UserRole.organizer
    ∧ toUiRole (some "boss") = UserRole.creator :=
  ⟨(claim_C8_role_mapping "Organizer").1.mpr (by decide),
   (claim_C8_role_mapping "boss").2.2.1 (by decide) (by decide)⟩


/-! ### BookingFlow (src/unnamed/part_001 first document): draft checkout -/

/-- The checkout `Draft` staged in `sharthi_booking_draft`
(part_001 lines 17-22). -/
structure Draft where
  eventId : String
  stallId : String
  tier : String
  price : Nat
  deriving DecidableEq, Repr

/-- The `step` state of `BookingFlow` (part_001 line 67). -/
inductive FlowStep
  | review
  | payment
  | success
  deriving DecidableEq, Repr

/-- The `totals` memo (part_001 lines 111-117): base price plus a zero
platform fee and zero GST. -/
def totalsTotal (draft : Option Draft) : Nat :=
  let base := match draft with | some d => d.price | none => 0
  let platform := 0
  let gst := 0
  base + platform + gst

/-- Result of one `api(path, init)` call (part_001 lines 52-64): a parsed
JSON value on a 2xx status, otherwise a thrown error message. -/
inductive ApiOutcome (α : Type)
  | ok (val : α)
  | err (msg : String)
  deriving DecidableEq, Repr

/-- `true` exactly on the `ok` constructor. -/
def ApiOutcome.isOk {α : Type} : ApiOutcome α → Bool
  | ApiOutcome.ok _ => true
  | ApiOutcome.err _ => false

/-- The `POST /bookings` body (part_001 lines 135-143). -/
structure BookingRequest where
  eventId : String
  stallId : String
  amount : Nat
  paymentRef : String
  deriving DecidableEq, Repr

/-- The booking-creation body built in `handlePayment`
(part_001 lines 135-143): the draft ids, `totals.total`, and the payment
reference obtained from `POST /payments/mock`. -/
def mkBookingRequest (d : Draft) (ref : String) : BookingRequest :=
  { eventId := d.eventId
    stallId := d.stallId
    amount := totalsTotal (some d)
    paymentRef := ref }

/-- Observable outcome of one `handlePayment` run: the resulting `step`,
the value left under the `sharthi_booking_draft` key, the booking request
sent (if the flow got that far), and whether the optimistic local echo
was prepended to the `sharthi_my_bookings` mirror. -/
structure PayOutcome where
  step : FlowStep
  draftStored : Option Draft
  requestSent : Option BookingRequest
  localEcho : Bool
  deriving DecidableEq, Repr

/-- `handlePayment` (part_001 lines 119-175).  `draft` is both the
component state and the stored `sharthi_booking_draft` value: the load
effect (lines 75-109) parses the stored draft into the state and nothing
mutates the key in between.  `pay` is the outcome of
`POST /payments/mock`; `book` is the outcome of `POST /bookings` as a
function of the request body.  The flow starts (and on failure stays) at
the payment step; only full success moves to `success` and deletes the
stored draft.  The write of the `sharthi_my_bookings` mirror
(lines 152-170) is recorded by the `localEcho` flag. -/
def handlePayment (token : Option String) (draft : Option Draft)
    (pay : ApiOutcome String) (book : BookingRequest → ApiOutcome Unit) : PayOutcome :=
  match draft with
  | none => { step := FlowStep.payment, draftStored := none, requestSent := none, localEcho := false }
  | some d =>
    if isTruthy token = false then
      { step := FlowStep.payment, draftStored := some d, requestSent := none, localEcho := false }
    else
      match pay with
      | ApiOutcome.err _ =>
          { step := FlowStep.payment, draftStored := some d, requestSent := none, localEcho := false }
      | ApiOutcome.ok ref =>
          let req := mkBookingRequest d ref
          match book req with
          | ApiOutcome.err _ =>
              { step := FlowStep.payment, draftStored := some d, requestSent := some req, localEcho := false }
          | ApiOutcome.ok _ =>
              { step := FlowStep.success, draftStored := none, requestSent := some req, localEcho := true }

/-- C2 : in the payment step the booking request carries exactly the
draft's price; the draft is deleted and the flow reaches `success` if and
only if both sequential calls succeed; on any failure the draft is kept
and the flow stays at the payment step. -/
theorem claim_C2_payment_flow (d : Draft) (token : Option String)
    (pay : ApiOutcome String) (book : BookingRequest → ApiOutcome Unit)
    (htok : isTruthy token = true) :
    (totalsTotal (some d) = d.price)
    ∧ (∀ req, (handlePayment token (some d) pay book).requestSent = some req →
        req.amount = d.price)
    ∧ (((handlePayment token (some d) pay book).step = FlowStep.success
        ∧ (handlePayment token (some d) pay book).draftStored = none)
       ↔ ∃ ref, pay = ApiOutcome.ok ref ∧ (book (mkBookingRequest d ref)).isOk = true)
    ∧ (∀ msg, pay = ApiOutcome.err msg →
        handlePayment token (some d) pay book =
          { step := FlowStep.payment, draftStored := some d, requestSent := none, localEcho := false })
    ∧ (∀ ref msg, pay = ApiOutcome.ok ref → book (mkBookingRequest d ref) = ApiOutcome.err msg →
        handlePayment token (some d) pay book =
          { step := FlowStep.payment, draftStored := some d,
            requestSent := some (mkBookingRequest d ref), localEcho := false }) := by
  refine ⟨rfl, ?_, ?_, ?_, ?_⟩
  · intro req hreq
    cases hp : pay with
    | err m => simp [handlePayment, htok, hp] at hreq
    | ok ref =>
        cases hb : book (mkBookingRequest d ref) with
        | err m =>
            simp [handlePayment, htok, hp, hb] at hreq
            simp [← hreq, mkBookingRequest, totalsTotal]
        | ok u =>
            simp [handlePayment, htok, hp, hb] at hreq
            simp [← hreq, mkBookingRequest, totalsTotal]
  · cases hp : pay with
    | err m => simp [handlePayment, htok, hp]
    | ok ref =>
        cases hb : book (mkBookingRequest d ref) with
        | err m => simp [handlePayment, htok, hp, hb, ApiOutcome.isOk]
        | ok u => simp [handlePayment, htok, hp, hb, ApiOutcome.isOk]
  · intro msg hp
    simp [handlePayment, htok, hp]
  · intro ref msg hp hb
    simp [handlePayment, htok, hp, hb]

/-- Witness for C2 at the spec's happy-path draft: price 8000 is carried
as the amount and the flow confirms and clears the draft when both calls
succeed. -/
theorem claim_C2_payment_flow_witness :
    isTruthy (some "tok") = true
    ∧ (handlePayment (some "tok") (some ⟨"E1", "S1", "Premium", 8000⟩)
        (ApiOutcome.ok "PAY_1") (fun _ => ApiOutcome.ok ())).step = FlowStep.success
    ∧ (handlePayment (some "tok") (some ⟨"E1", "S1", "Premium", 8000⟩)
        (ApiOutcome.ok "PAY_1") (fun _ => ApiOutcome.ok ())).draftStored = none := by
  have h := claim_C2_payment_flow ⟨"E1", "S1", "Premium", 8000⟩ (some "tok")
    (ApiOutcome.ok "PAY_1") (fun _ => ApiOutcome.ok ()) (by decide)
  have hs := h.2.2.1.mpr ⟨"PAY_1", rfl, rfl⟩
  exact ⟨by decide, hs.1, hs.2⟩


/-! ### EventDetail (src/unnamed/part_000 second document) -/

/-- A normalized stall row (part_000 lines 234-242 and 329-337). -/
structure Stall where
  id : String
  name : Option String
  tier : String
  price : Nat
  qtyTotal : Nat
  qtyLeft : Nat
  deriving DecidableEq, Repr

/-- `Math.round(num / den)` on non-negative integers (`den` positive). -/
def jsRound (num den : Nat) : Nat :=
  (2 * num + den) / (2 * den)

/-- The grouping key `(s.tier || "SILVER").toUpperCase()` used by the
`byTier` map (part_000 lines 349-354). -/
def tierKey (s : Stall) : String :=
  toUpperStr (if s.tier = "" then "SILVER" else s.tier)

/-- The stalls grouped under `key` by the `byTier` map, in first-seen
order (part_000 lines 348-354). -/
def tierStalls (stalls : List Stall) (key : String) : List Stall :=
  stalls.filter (fun s => tierKey s == key)

/-- One card of the `tierCards` memo (part_000 lines 355-377). -/
structure TierCard where
  id : String
  name : String
  price : Nat
  size : String
  features : List String
  available : Nat
  total : Nat
  popular : Bool
  sampleStallId : Option String
  deriving DecidableEq, Repr

/-- `mkCard` (part_000 lines 355-377): sum the tier's quantities, average
its prices (with a per-tier default when the tier has no stalls), and take
the first stall's id as `sampleStallId` (`arr[0]?.id || null`). -/
def mkCard (stalls : List Stall) (key label : String) (features : List String)
    (popular : Bool) : TierCard :=
  let arr := tierStalls stalls key
  let total := arr.foldl (fun t s => t + s.qtyTotal) 0
  let left := arr.foldl (fun t s => t + s.qtyLeft) 0
  let price :=
    if arr.length ≠ 0 then jsRound (arr.foldl (fun t s => t + s.price) 0) arr.length
    else if key = "GOLD" then 12000
    else if key = "SILVER" then 8000
    else 5000
  { id := toLowerStr key
    name := label
    price := price
    size := if key = "GOLD" then "15x15 ft" else if key = "SILVER" then "12x12 ft" else "10x10 ft"
    features := features
    available := left
    total := total
    popular := popular
    sampleStallId :=
      match arr.head? with
      | none => none
      | some s => if s.id = "" then none else some s.id }

/-- The three rendered cards (part_000 lines 378-382). -/
def tierCards (stalls : List Stall) : List TierCard :=
  [ mkCard stalls "BRONZE" "Basic" ["Basic Setup", "Electricity", "Table & Chairs"] false,
    mkCard stalls "SILVER" "Premium"
      ["Premium Setup", "Electricity", "Furniture", "Branding Space"] true,
    mkCard stalls "GOLD" "VIP"
      ["VIP Setup", "Premium Electricity", "Full Furniture", "Prime Location",
       "Dedicated Support"] false ]

/-- The `disabled` condition of the tier button, which is also the
condition for the "Sold Out" label (part_000 lines 530-532). -/
def soldOutDisabled (c : TierCard) : Bool :=
  decide (0 < c.total ∧ c.available ≤ 0)

/-- Observable outcome of `onSelectTier`: the draft written to
`sharthi_booking_draft` (if any), whether the "No stalls left" info
notice was shown, and whether `onBookStall` was invoked. -/
structure SelectOutcome where
  draftWritten : Option Draft
  infoNotice : Bool
  navigatedToBooking : Bool
  deriving DecidableEq, Repr

/-- `onSelectTier` (part_000 lines 385-398): a falsy resolved event id
(`if (!eid) return;` — both `null` and the empty string) returns
silently; a missing sample stall, or a positive total with no
availability, shows the info notice and writes nothing; otherwise the
draft `{eventId, stallId, tier: label, price}` is stored and the flow
moves to the booking screen. -/
def onSelectTier (eid : Option String) (card : TierCard) : SelectOutcome :=
  match eid with
  | none => { draftWritten := none, infoNotice := false, navigatedToBooking := false }
  | some e =>
    if e = "" then
      { draftWritten := none, infoNotice := false, navigatedToBooking := false }
    else
      match card.sampleStallId with
      | none => { draftWritten := none, infoNotice := true, navigatedToBooking := false }
      | some sid =>
        if 0 < card.total ∧ card.available ≤ 0 then
          { draftWritten := none, infoNotice := true, navigatedToBooking := false }
        else
          { draftWritten := some { eventId := e, stallId := sid, tier := card.name, price := card.price }
            infoNotice := false
            navigatedToBooking := true }

/-- Event list row used by the resolve effect (part_000 lines 244-255);
only the id takes part in the resolution logic. -/
structure EventMeta where
  id : String
  title : String
  deriving DecidableEq, Repr

/-- `isRealId` (part_000 line 260): at least 24 characters, all ASCII
alphanumeric (the regex `[a-z0-9]+` with the `i` flag). -/
def isRealId (id : Option String) : Bool :=
  match id with
  | none => false
  | some s => decide (24 ≤ s.length) && s.data.all (fun c => c.isAlphanum)

/-- How the resolve effect ends (part_000 lines 269-298): either a
resolved event id, or the "No events found" error followed by `onBack`. -/
inductive ResolveOutcome
  | resolved (id : String)
  | noEvents
  deriving DecidableEq, Repr

/-- The fallback of the resolve effect: first event of the list if there
is one, else the error-and-back path (part_000 lines 280-287). -/
def fallbackResolve : List EventMeta → ResolveOutcome
  | [] => ResolveOutcome.noEvents
  | e :: _ => ResolveOutcome.resolved e.id

/-- The resolve effect (part_000 lines 269-298): keep the parent's id
only when it looks real and occurs in the fetched list; otherwise fall
back to the first fetched event, or error out when the list is empty. -/
def resolveEventId (eventId : Option String) (list : List EventMeta) : ResolveOutcome :=
  if isRealId eventId && list.any (fun e => some e.id == eventId) then
    match eventId with
    | some i => ResolveOutcome.resolved i
    | none => fallbackResolve list
  else fallbackResolve list


/-- Folding `+ f s` over a list starting at `init` is `init` plus the sum
of the mapped values (the shape of the `reduce` calls in `mkCard`). -/
lemma foldl_add_map (f : Stall → Nat) (l : List Stall) (init : Nat) :
    l.foldl (fun t s => t + f s) init = init + (l.map f).sum := by
  induction l generalizing init with
  | nil => simp
  | cons s rest ih => simp [List.foldl_cons, ih, Nat.add_assoc]

/-- C5 (counterexample to the claim as stated): a GOLD tier whose only
stall has `qtyTotal = 0` and `qtyLeft = 0` has summed availability 0,
yet selecting it shows no info notice and writes a draft, because the
guard only blocks when `total > 0`. -/
theorem claim_C5_cex :
    ((tierStalls [⟨"s1", none, "GOLD", 100, 0, 0⟩] "GOLD").map (fun s => s.qtyLeft)).sum = 0
    ∧ (onSelectTier (some "e1")
        (mkCard [⟨"s1", none, "GOLD", 100, 0, 0⟩] "GOLD" "VIP"
          ["VIP Setup", "Premium Electricity", "Full Furniture", "Prime Location",
           "Dedicated Support"] false)).infoNotice = false
    ∧ (onSelectTier (some "e1")
        (mkCard [⟨"s1", none, "GOLD", 100, 0, 0⟩] "GOLD" "VIP"
          ["VIP Setup", "Premium Electricity", "Full Furniture", "Prime Location",
           "Dedicated Support"] false)).draftWritten = some ⟨"e1", "s1", "VIP", 100⟩ := by
  decide

/-- C5 (amended): each card's `available`/`total` are the sums of
`qtyLeft`/`qtyTotal` over that tier's stalls; the button is disabled and
labeled sold-out exactly when `total > 0` and `available = 0`; selection
shows the info notice and writes no draft exactly when the resolved
event id is truthy and the tier has no sample stall or `total > 0` with
`available = 0` (a falsy id no-ops silently); and the spec's GOLD
example reports available 2 of 5 and is enabled. -/
theorem claim_C5_tier_cards_amended (stalls : List Stall) (key label : String)
    (features : List String) (popular : Bool) (e : String) :
    ((mkCard stalls key label features popular).available
        = ((tierStalls stalls key).map (fun s => s.qtyLeft)).sum)
    ∧ ((mkCard stalls key label features popular).total
        = ((tierStalls stalls key).map (fun s => s.qtyTotal)).sum)
    ∧ (soldOutDisabled (mkCard stalls key label features popular) = true
        ↔ 0 < (mkCard stalls key label features popular).total
          ∧ (mkCard stalls key label features popular).available = 0)
    ∧ (((onSelectTier (some e) (mkCard stalls key label features popular)).draftWritten = none
        ∧ (onSelectTier (some e) (mkCard stalls key label features popular)).infoNotice = true)
       ↔ (e ≠ ""
          ∧ ((mkCard stalls key label features popular).sampleStallId = none
             ∨ (0 < (mkCard stalls key label features popular).total
                ∧ (mkCard stalls key label features popular).available = 0))))
    ∧ (soldOutDisabled (mkCard [⟨"g1", none, "GOLD", 10000, 5, 2⟩] "GOLD" "VIP"
          ["VIP Setup", "Premium Electricity", "Full Furniture", "Prime Location",
           "Dedicated Support"] false) = false
       ∧ (mkCard [⟨"g1", none, "GOLD", 10000, 5, 2⟩] "GOLD" "VIP"
          ["VIP Setup", "Premium Electricity", "Full Furniture", "Prime Location",
           "Dedicated Support"] false).available = 2
       ∧ (mkCard [⟨"g1", none, "GOLD", 10000, 5, 2⟩] "GOLD" "VIP"
          ["VIP Setup", "Premium Electricity", "Full Furniture", "Prime Location",
           "Dedicated Support"] false).total = 5) := by
  refine ⟨?_, ?_, ?_, ?_, by decide⟩
  · simp [mkCard, foldl_add_map]
  · simp [mkCard, foldl_add_map]
  · simp [soldOutDisabled, Nat.le_zero]
  · by_cases he : e = ""
    · simp [onSelectTier, he]
    · cases hs : (mkCard stalls key label features popular).sampleStallId with
      | none => simp [onSelectTier, hs, he]
      | some sid =>
          by_cases hc : 0 < (mkCard stalls key label features popular).total
              ∧ (mkCard stalls key label features popular).available = 0
          · simp [onSelectTier, hs, hc, he, Nat.le_zero]
          · simp [onSelectTier, hs, hc, he, Nat.le_zero]

/-- C10 : a requested id that does not look real or is absent from the
fetched list silently resolves to the first fetched event; only an empty
list yields the error-and-back outcome. -/
theorem claim_C10_event_resolution (id : Option String) (e : EventMeta)
    (rest : List EventMeta) :
    ((isRealId id = false ∨ (e :: rest).any (fun x => some x.id == id) = false) →
      resolveEventId id (e :: rest) = ResolveOutcome.resolved e.id)
    ∧ resolveEventId id [] = ResolveOutcome.noEvents
    ∧ resolveEventId id (e :: rest) ≠ ResolveOutcome.noEvents := by
  refine ⟨?_, ?_, ?_⟩
  · intro h
    rcases h with h | h
    · simp [resolveEventId, h, fallbackResolve]
    · simp [resolveEventId, h, fallbackResolve]
  · simp [resolveEventId, fallbackResolve]
  · unfold resolveEventId
    split
    · cases id <;> simp [fallbackResolve]
    · simp [fallbackResolve]

/-- Witness for C10: a one-character id is not a real id, so a singleton
fetched list resolves to its first (only) event. -/
theorem claim_C10_event_resolution_witness :
    resolveEventId (some "x") [⟨"ev1", "Expo"⟩] = ResolveOutcome.resolved "ev1" :=
  (claim_C10_event_resolution (some "x") ⟨"ev1", "Expo"⟩ []).1 (Or.inl (by decide))


/-! ### AdminDashboard analytics (AdminDashboard.tsx lines 839-857) and
the EventDetail availability bar (part_000 lines 512-524) -/

/-- One row of the admin bookings table as used by the derived analytics
(status already lowercased, amount in whole rupees). -/
structure AdminBookingRow where
  status : String
  amount : Nat
  deriving DecidableEq, Repr

/-- One pass of the counting loop (AdminDashboard.tsx lines 845-856):
the accumulator is `(paidCount, pendingCount, cancelledCount, paidAmount)`. -/
def bookingStep (acc : Nat × Nat × Nat × Nat) (b : AdminBookingRow) : Nat × Nat × Nat × Nat :=
  if b.status = "paid" then (acc.1 + 1, acc.2.1, acc.2.2.1, acc.2.2.2 + b.amount)
  else if b.status = "pending" then (acc.1, acc.2.1 + 1, acc.2.2.1, acc.2.2.2)
  else if b.status = "cancelled" then (acc.1, acc.2.1, acc.2.2.1 + 1, acc.2.2.2)
  else acc

/-- The whole counting loop over the filtered bookings list. -/
def bookingTallies (bs : List AdminBookingRow) : Nat × Nat × Nat × Nat :=
  bs.foldl bookingStep (0, 0, 0, 0)

/-- `paidCount` after the loop. -/
def paidCount (bs : List AdminBookingRow) : Nat :=
  (bookingTallies bs).1

/-- `successRate` (AdminDashboard.tsx lines 857-858):
`totalBookings > 0 ? Math.round((paidCount / totalBookings) * 100) : 0`. -/
def successRate (bs : List AdminBookingRow) : Nat :=
  if 0 < bs.length then jsRound (100 * paidCount bs) bs.length else 0

/-- Modelled from the spec: "percentages are computed as
`round(100 * numerator / denominator)` and must special-case
`denominator == 0 → 0`". -/
def rateSpec (num den : Nat) : Nat :=
  if den = 0 then 0 else jsRound (100 * num) den

/-- The width of the EventDetail availability bar (part_000 line 522):
`total > 0 ? Math.max(2, (available / total) * 100) : 100`, in percent. -/
def availWidthPercent (available total : Nat) : ℚ :=
  if 0 < total then max 2 (((available : ℚ) / (total : ℚ)) * 100) else 100

/-- The paid counter never exceeds the number of rows consumed. -/
lemma foldl_bookingStep_paid_le (bs : List AdminBookingRow) :
    ∀ acc : Nat × Nat × Nat × Nat, (bs.foldl bookingStep acc).1 ≤ acc.1 + bs.length := by
  induction bs with
  | nil => intro acc; simp
  | cons b rest ih =>
      intro acc
      have hstep : (bookingStep acc b).1 ≤ acc.1 + 1 := by
        unfold bookingStep
        split_ifs <;> simp
      calc (List.foldl bookingStep acc (b :: rest)).1
          = (List.foldl bookingStep (bookingStep acc b) rest).1 := by simp [List.foldl_cons]
        _ ≤ (bookingStep acc b).1 + rest.length := ih (bookingStep acc b)
        _ ≤ acc.1 + 1 + rest.length := by omega
        _ = acc.1 + (b :: rest).length := by simp [List.length_cons]; omega

/-- `paidCount` is at most the length of the list. -/
lemma paidCount_le_length (bs : List AdminBookingRow) : paidCount bs ≤ bs.length := by
  have h := foldl_bookingStep_paid_le bs (0, 0, 0, 0)
  simpa [paidCount, bookingTallies] using h

/-- Rounding a ratio `p / t ≤ 1` to a percentage stays at most 100. -/
lemma jsRound_ratio_le_100 (p t : Nat) (hp : p ≤ t) (ht : 0 < t) :
    jsRound (100 * p) t ≤ 100 := by
  unfold jsRound
  have hlt : 2 * (100 * p) + t < 101 * (2 * t) := by omega
  have := (Nat.div_lt_iff_lt_mul (by omega : 0 < 2 * t)).mpr hlt
  omega

/-- C6 : the success rate equals the spec's guarded `round(100 * num / den)`
with `den = 0 ↦ 0`, is always a defined percentage at most 100, the empty
list yields all-zero aggregates, and a tier group with `total = 0` renders
the 100 %-equivalent availability bar. -/
theorem claim_C6_rates_defined (bs : List AdminBookingRow) (available : Nat) :
    successRate bs = rateSpec (paidCount bs) bs.length
    ∧ successRate bs ≤ 100
    ∧ bookingTallies ([] : List AdminBookingRow) = (0, 0, 0, 0)
    ∧ successRate ([] : List AdminBookingRow) = 0
    ∧ availWidthPercent available 0 = 100 := by
  refine ⟨?_, ?_, rfl, rfl, by norm_num [availWidthPercent]⟩
  · unfold successRate rateSpec
    rcases Nat.eq_zero_or_pos bs.length with h | h
    · simp [h]
    · have : bs.length ≠ 0 := by omega
      simp [h, this]
  · unfold successRate
    rcases Nat.eq_zero_or_pos bs.length with h | h
    · simp [h]
    · simp only [h, if_pos]
      exact jsRound_ratio_le_100 _ _ (paidCount_le_length bs) h


/-! ### Request-lifecycle handling: SearchPage (src/unnamed/part_001
second document, lines 515-616) versus OrganizerDashboard
(src/unnamed/part_002, lines 227-298) -/

/-- The pieces of a load effect's in-flight control: the local `cancel`
flag and whether the `AbortController` of the in-flight fetches has been
aborted. -/
structure FlightCtl where
  cancel : Bool
  aborted : Bool
  deriving DecidableEq, Repr

/-- The SearchPage effect cleanup (part_001 second document):
`cancel = true; controller.abort()` — run when the screen unmounts or the
filters change. -/
def searchEffectCleanup (f : FlightCtl) : FlightCtl :=
  { f with cancel := true, aborted := true }

/-- The OrganizerDashboard load effects return no cleanup function, so an
unmount leaves their in-flight requests untouched (part_002 lines
227-298). -/
def organizerEventsCleanup (f : FlightCtl) : FlightCtl :=
  f

/-- An event card of the SearchPage results grid (part_001 second
document); the fields not consulted by the settle step are omitted. -/
structure CardEvent where
  id : String
  title : String
  stallsAvailable : Nat
  priceFrom : Nat
  deriving DecidableEq, Repr

/-- A creator card of the SearchPage results grid; display-only fields
are omitted. -/
structure UICreator where
  id : String
  name : String
  deriving DecidableEq, Repr

/-- The SearchPage view state touched by its load effect. -/
structure SearchState where
  loading : Bool
  events : List CardEvent
  creators : List UICreator
  deriving DecidableEq, Repr

/-- The settle step of the SearchPage load effect: state is written only
behind `if (!cancel)` guards (`setEvents`/`setCreators` in the try block,
`setLoading(false)` in the finally block). -/
def searchSettle (f : FlightCtl) (evCards : List CardEvent) (crCards : List UICreator)
    (st : SearchState) : SearchState :=
  if f.cancel then st
  else { st with events := evCards, creators := crCards, loading := false }

/-- An organizer event card (part_002 lines 88-98); the status string is
kept as produced by `normalizeStatus`. -/
structure EventCard where
  id : String
  name : String
  date : String
  location : String
  status : String
  stallsSold : Nat
  stallsTotal : Nat
  revenue : Nat
  views : Nat
  deriving DecidableEq, Repr

/-- The OrganizerDashboard view state touched by its events load effect. -/
structure OrgDashState where
  loading : Bool
  myEvents : List EventCard
  deriving DecidableEq, Repr

/-- The settle step of the OrganizerDashboard events load effect
(part_002 lines 227-261): `setMyEvents(cards)` and `setLoading(false)`
run unconditionally — the effect consults no cancel flag and passes no
abort signal, so the flight control `f` is ignored and a fetch that
resolves after the user navigated away still lands in state. -/
def organizerEventsSettle (f : FlightCtl) (cards : List EventCard)
    (st : OrgDashState) : OrgDashState :=
  { st with myEvents := cards, loading := false }

/-- C9 (counterexample to the claim as stated): unmounting the
OrganizerDashboard aborts nothing, and the eventual resolution of its
events fetch mutates the dashboard state anyway. -/
theorem claim_C9_cex :
    (organizerEventsCleanup { cancel := false, aborted := false }).aborted = false
    ∧ organizerEventsSettle (organizerEventsCleanup { cancel := false, aborted := false })
        [{ id := "e1", name := "Expo", date := "-", location := "Delhi",
           status := "upcoming", stallsSold := 0, stallsTotal := 0,
           revenue := 0, views := 0 }]
        { loading := true, myEvents := [] }
      ≠ { loading := true, myEvents := [] } := by
  refine ⟨rfl, ?_⟩
  decide

/-- C9 (amended): the SearchPage cleanup cancels and aborts its flight
and a settled result is discarded without any state mutation after
cancellation, while the OrganizerDashboard effects register no cleanup
and apply their result regardless of the flight control. -/
theorem claim_C9_cancellation_amended :
    (∀ (f : FlightCtl) (ev : List CardEvent) (cr : List UICreator) (st : SearchState),
      (searchEffectCleanup f).cancel = true
      ∧ (searchEffectCleanup f).aborted = true
      ∧ searchSettle (searchEffectCleanup f) ev cr st = st)
    ∧ (∀ (f : FlightCtl) (cards : List EventCard) (st : OrgDashState),
      organizerEventsCleanup f = f
      ∧ (organizerEventsSettle f cards st).myEvents = cards
      ∧ (organizerEventsSettle f cards st).loading = false) := by
  refine ⟨fun f ev cr st => ⟨rfl, rfl, ?_⟩, fun f cards st => ⟨rfl, rfl, rfl⟩⟩
  simp [searchSettle, searchEffectCleanup]

end Sharthi
